import Mathlib

/-!
Shallow embedding of `src/code/main.py` (sensor-hub sample-and-upload demo).

Sensor scalars (Python floats) are modelled as exact rationals `ℚ`; the
change filter only compares absolute differences against the literal
threshold 1, so exact arithmetic captures the control flow. Python `None`
becomes `Option.none`. A sensor driver call that may raise is modelled as
an `Option` result: `none` means the call raised and the surrounding
`except` block caught the error.
-/

namespace SensorHub

/-- The shared `DataSet` object (its `lock` field is a concurrency
primitive, not data, and is not part of the state). Fields `temp1`,
`humi`, `press`, `temp2` are initialised to the int `0` and later hold a
float or `None`, hence `Option ℚ`; `rgb888` is always an int. -/
structure DataSet where
  temp1 : Option ℚ
  humi : Option ℚ
  press : Option ℚ
  temp2 : Option ℚ
  rgb888 : Nat
deriving DecidableEq, Repr

/-- `DataSet.__init__`: every field starts at `0`. -/
def initDataSet : DataSet := ⟨some 0, some 0, some 0, some 0, 0⟩

/-- The collector's four private previous-value memos, all starting at
`None`. -/
structure Memos where
  prev_temp1 : Option ℚ
  prev_humi : Option ℚ
  prev_temp2 : Option ℚ
  prev_press : Option ℚ
deriving DecidableEq, Repr

/-- `SensorDataCollector.__init__`: all memos unset. -/
def initMemos : Memos := ⟨none, none, none, none⟩

/-- One tick's worth of driver-call outcomes. `shtc3` yields
`(temp1, humi)`, `lps22hb` yields `(press, temp2)`, `tcs34725` yields the
packed rgb888 int; `none` models the call raising. -/
structure SensorInput where
  shtc3 : Option (ℚ × ℚ)
  lps22hb : Option (ℚ × ℚ)
  tcs34725 : Option Nat
deriving DecidableEq, Repr

/-- The per-metric filter step inlined four times in
`SensorDataCollector.getSensorData`:
`if prev is None or abs(v - prev) > 1: field = prev = v else: field = None`.
Returns `(field written to the data set, new memo)`. -/
def applyFilter (prev : Option ℚ) (v : ℚ) : Option ℚ × Option ℚ :=
  match prev with
  | none => (some v, some v)
  | some p => if |v - p| > 1 then (some v, some v) else (none, some p)

/-- `SensorDataCollector.getSensorData`: each of the three driver reads is
wrapped in its own `try/except`; a raise leaves that sensor's fields and
memos untouched and execution continues with the next block. -/
def getSensorData (inp : SensorInput) (ds : DataSet) (m : Memos) :
    DataSet × Memos :=
  let s1 : DataSet × Memos :=
    match inp.shtc3 with
    | none => (ds, m)
    | some (t1, h) =>
      let f1 := applyFilter m.prev_temp1 t1
      let f2 := applyFilter m.prev_humi h
      ({ ds with temp1 := f1.1, humi := f2.1 },
       { m with prev_temp1 := f1.2, prev_humi := f2.2 })
  let s2 : DataSet × Memos :=
    match inp.lps22hb with
    | none => s1
    | some (pr, t2) =>
      let f3 := applyFilter s1.2.prev_temp2 t2
      let f4 := applyFilter s1.2.prev_press pr
      ({ s1.1 with temp2 := f3.1, press := f4.1 },
       { s1.2 with prev_temp2 := f3.2, prev_press := f4.2 })
  match inp.tcs34725 with
  | none => s2
  | some rgb => ({ s2.1 with rgb888 := rgb }, s2.2)

/-- The sampling loop (`SensorDataCollector.__call__`) run for `n` ticks,
reading tick `k`'s sensors from `inps k`. -/
def samplingLoop (inps : Nat → SensorInput) (ds : DataSet) (m : Memos) :
    Nat → DataSet × Memos
  | 0 => (ds, m)
  | n + 1 =>
    let s := samplingLoop inps ds m n
    getSensorData (inps n) s.1 s.2

/-- Observable outcome of one `sendLbs`/`sendGnss` run: how many times the
client action was called, how many `utime.sleep(1)` calls happened, and
whether the success branch was taken (the method itself returns `None`;
success is only reported through the log line). -/
structure RetryOutcome where
  calls : Nat
  sleeps : Nat
  success : Bool
deriving DecidableEq, Repr

/-- The `for i in range(10): if action(): break; utime.sleep(1) else: fail`
loop shared verbatim by `SensorDataUploader.sendLbs` and `sendGnss`.
`act i` is the result of the `(i+1)`-th client call (0-indexed); `fuel` is
the number of loop iterations remaining. Note the sleep runs after every
failed attempt, the last one included; only `break` skips it. -/
def retryLoopAux (act : Nat → Bool) (i : Nat) : Nat → RetryOutcome
  | 0 => ⟨0, 0, false⟩
  | fuel + 1 =>
    if act i then ⟨1, 0, true⟩
    else
      let r := retryLoopAux act (i + 1) fuel
      ⟨r.calls + 1, r.sleeps + 1, r.success⟩

/-- `SensorDataUploader.sendLbs`, abstracted over the stream of
`qth_client.sendLbs()` results. -/
def sendLbs (act : Nat → Bool) : RetryOutcome := retryLoopAux act 0 10

/-- `SensorDataUploader.sendGnss`: textually the same loop over
`qth_client.sendGnss()`. -/
def sendGnss (act : Nat → Bool) : RetryOutcome := retryLoopAux act 0 10

/-- The handshake loop `for _ in range(30): if isStatusOk(): break;
sleep(1) else: log fatal; return`, abstracted over the stream of
`isStatusOk()` results. `i` is the index of the next `isStatusOk` call;
returns `(advanced to active reporting, next call index)`, so the second
component counts total `isStatusOk` calls made when starting from 0. -/
def handshakeAux (ok : Nat → Bool) (i : Nat) : Nat → Bool × Nat
  | 0 => (false, i)
  | fuel + 1 =>
    if ok i then (true, i + 1) else handshakeAux ok (i + 1) fuel

/-- The handshake phase of `SensorDataUploader.__call__`: up to 30 polls. -/
def handshake (ok : Nat → Bool) : Bool × Nat := handshakeAux ok 0 30

/-- The payload dict built in the steady-state loop, keyed by the fixed
numeric identifiers: key 7 is the nested color dict `{1: r, 2: g, 3: b}`,
keys 3..6 are temp1, humi, temp2, press. `none` means the key is absent. -/
structure Payload where
  rgb : Option (Nat × Nat × Nat)
  temp1 : Option ℚ
  humi : Option ℚ
  temp2 : Option ℚ
  press : Option ℚ
deriving DecidableEq, Repr

/-- The dict bound in the `timestamp % 5 == 0` branch:
`{7: {1: rgb>>16 & 0xFF, 2: rgb>>8 & 0xFF, 3: rgb & 0xFF}}`. -/
def freshPayload (rgb888 : Nat) : Payload :=
  ⟨some ((rgb888 >>> 16) &&& 0xFF, (rgb888 >>> 8) &&& 0xFF, rgb888 &&& 0xFF),
   none, none, none, none⟩

/-- The four `data.update({k: field})` calls guarded by `is not None`
checks (under the always-true `timestamp % 1 == 0`). A `None` field leaves
whatever the dict already holds under that key. -/
def updateMetrics (d : Payload) (ds : DataSet) : Payload :=
  let d := match ds.temp1 with | some v => { d with temp1 := some v } | none => d
  let d := match ds.humi with | some v => { d with humi := some v } | none => d
  let d := match ds.temp2 with | some v => { d with temp2 := some v } | none => d
  match ds.press with | some v => { d with press := some v } | none => d

/-- One tick's payload construction. `data` is the uploader's local `data`
variable as it stood at the top of the tick (`none` = never yet bound).
When `t % 5 ≠ 0` and `data` is unbound, reading it raises `NameError`,
modelled as `.error ()`. -/
def assembleData (t : Nat) (ds : DataSet) (data : Option Payload) :
    Except Unit Payload :=
  match (if t % 5 = 0 then some (freshPayload ds.rgb888) else data) with
  | none => .error ()
  | some d => .ok (if t % 1 = 0 then updateMetrics d ds else d)

/-- Observable actions of one steady-state tick. `tsl p` is
`qth_client.sendTsl(1, data)`; `lbs`/`gnss` mark calls to the uploader's
`sendLbs()`/`sendGnss()` helpers; `statusErr` is the
`"qth server connect error"` log; `caught` is the `except` clause's
`print(e)`. -/
inductive Event where
  | tsl (p : Payload)
  | lbs
  | gnss
  | statusErr
  | caught
deriving DecidableEq, Repr

/-- One iteration of the `while True` body in
`SensorDataUploader.__call__`: status check, payload assembly, telemetry
dispatch, cadence-gated location reports, all under the tick-level
`try/except`. Returns the new `data` binding and the tick's events in
program order. -/
def uploadTick (ok : Bool) (t : Nat) (ds : DataSet) (data : Option Payload) :
    Option Payload × List Event :=
  if ok then
    match assembleData t ds data with
    | .error _ => (data, [.caught])
    | .ok p =>
      (some p,
       [Event.tsl p]
         ++ (if t % 1800 = 0 then [Event.lbs] else [])
         ++ (if t % 60 = 0 then [Event.gnss] else []))
  else (data, [.statusErr])

/-- The steady-state loop run for `fuel` ticks. `i` indexes the shared
stream `ok` of `isStatusOk()` results (continuing the handshake's count),
`n` the tick number; `ts n` is tick `n`'s truncated timestamp and `dss n`
the data-set snapshot it reads under the lock. Yields one event list per
tick. -/
def runTicksAux (ok : Nat → Bool) (ts : Nat → Nat) (dss : Nat → DataSet)
    (i n : Nat) (data : Option Payload) : Nat → List (List Event)
  | 0 => []
  | fuel + 1 =>
    let r := uploadTick (ok i) (ts n) (dss n) data
    r.2 :: runTicksAux ok ts dss (i + 1) (n + 1) r.1 fuel

/-- Result of `SensorDataUploader.__call__`: either the handshake exhausted
its 30 polls and the task returned, or it entered active reporting,
performed the two initial location reports, and ran the steady loop. -/
inductive UploadResult where
  | aborted
  | active (initEvents : List Event) (ticks : List (List Event))
deriving DecidableEq, Repr

/-- `SensorDataUploader.__call__` (after `qth_client.start()`), with the
infinite steady-state loop truncated to `fuel` ticks. -/
def uploaderCall (ok : Nat → Bool) (ts : Nat → Nat) (dss : Nat → DataSet)
    (fuel : Nat) : UploadResult :=
  let h := handshake ok
  if h.1 then
    .active [Event.lbs, Event.gnss] (runTicksAux ok ts dss h.2 0 none fuel)
  else .aborted

/-- The telemetry payloads a whole uploader run dispatches. -/
def tslPayloads : UploadResult → List Payload
  | .aborted => []
  | .active _ ticks =>
    (ticks.flatten).filterMap fun e =>
      match e with
      | .tsl p => some p
      | _ => none

/-- The per-metric relation claimed for the shared set after a sampling
step: the field holds the no-change marker, or exactly the memo's value. -/
def fieldMatchesMemo (field memo : Option ℚ) : Prop :=
  field = none ∨ field = memo

instance (field memo : Option ℚ) : Decidable (fieldMatchesMemo field memo) :=
  inferInstanceAs (Decidable (field = none ∨ field = memo))

/-- `fieldMatchesMemo` for every filtered metric whose memo is set. -/
def memoFieldInv (ds : DataSet) (m : Memos) : Prop :=
  (m.prev_temp1 ≠ none → fieldMatchesMemo ds.temp1 m.prev_temp1) ∧
  (m.prev_humi ≠ none → fieldMatchesMemo ds.humi m.prev_humi) ∧
  (m.prev_temp2 ≠ none → fieldMatchesMemo ds.temp2 m.prev_temp2) ∧
  (m.prev_press ≠ none → fieldMatchesMemo ds.press m.prev_press)

theorem applyFilter_consistent (prev : Option ℚ) (v : ℚ) :
    fieldMatchesMemo (applyFilter prev v).1 (applyFilter prev v).2 := by
  rcases prev with _ | p
  · exact Or.inr rfl
  · by_cases h : |v - p| > 1 <;> simp [applyFilter, h, fieldMatchesMemo]

theorem applyFilter_snd_ne_none (prev : Option ℚ) (v : ℚ) :
    (applyFilter prev v).2 ≠ none := by
  rcases prev with _ | p
  · simp [applyFilter]
  · by_cases h : |v - p| > 1 <;> simp [applyFilter, h]

/-- `getSensorData`, written as independent per-sensor projections: each
sensor's fields depend only on that sensor's own read outcome. -/
theorem getSensorData_eq (inp : SensorInput) (ds : DataSet) (m : Memos) :
    getSensorData inp ds m =
      ({ temp1 := match inp.shtc3 with
                  | none => ds.temp1
                  | some (t1, _) => (applyFilter m.prev_temp1 t1).1,
         humi := match inp.shtc3 with
                 | none => ds.humi
                 | some (_, h) => (applyFilter m.prev_humi h).1,
         press := match inp.lps22hb with
                  | none => ds.press
                  | some (pr, _) => (applyFilter m.prev_press pr).1,
         temp2 := match inp.lps22hb with
                  | none => ds.temp2
                  | some (_, t2) => (applyFilter m.prev_temp2 t2).1,
         rgb888 := match inp.tcs34725 with
                   | none => ds.rgb888
                   | some rgb => rgb },
       { prev_temp1 := match inp.shtc3 with
                       | none => m.prev_temp1
                       | some (t1, _) => (applyFilter m.prev_temp1 t1).2,
         prev_humi := match inp.shtc3 with
                      | none => m.prev_humi
                      | some (_, h) => (applyFilter m.prev_humi h).2,
         prev_temp2 := match inp.lps22hb with
                       | none => m.prev_temp2
                       | some (_, t2) => (applyFilter m.prev_temp2 t2).2,
         prev_press := match inp.lps22hb with
                       | none => m.prev_press
                       | some (pr, _) => (applyFilter m.prev_press pr).2 }) := by
  rcases inp with ⟨s, l, c⟩
  rcases s with _ | ⟨t1, h⟩ <;> rcases l with _ | ⟨pr, t2⟩ <;>
    rcases c with _ | rgb <;> rfl

theorem getSensorData_preserves_inv (inp : SensorInput) (ds : DataSet)
    (m : Memos) (h : memoFieldInv ds m) :
    memoFieldInv (getSensorData inp ds m).1 (getSensorData inp ds m).2 := by
  obtain ⟨h1, h2, h3, h4⟩ := h
  rw [getSensorData_eq]
  rcases inp with ⟨s, l, c⟩
  rcases s with _ | ⟨t1, hu⟩ <;> rcases l with _ | ⟨pr, t2⟩ <;>
    rcases c with _ | rgb <;>
      exact ⟨by first | exact h1 | exact fun _ => applyFilter_consistent _ _,
             by first | exact h2 | exact fun _ => applyFilter_consistent _ _,
             by first | exact h3 | exact fun _ => applyFilter_consistent _ _,
             by first | exact h4 | exact fun _ => applyFilter_consistent _ _⟩

theorem memoFieldInv_init : memoFieldInv initDataSet initMemos := by
  refine ⟨fun h => absurd rfl h, fun h => absurd rfl h,
    fun h => absurd rfl h, fun h => absurd rfl h⟩

theorem samplingLoop_inv (inps : Nat → SensorInput) (n : Nat) :
    memoFieldInv (samplingLoop inps initDataSet initMemos n).1
      (samplingLoop inps initDataSet initMemos n).2 := by
  induction n with
  | zero => exact memoFieldInv_init
  | succ n ih => exact getSensorData_preserves_inv _ _ _ ih

theorem retryLoopAux_all_fail (act : Nat → Bool) (fuel : Nat) : ∀ i : Nat,
    (∀ j, j < fuel → act (i + j) = false) →
    retryLoopAux act i fuel = ⟨fuel, fuel, false⟩ := by
  induction fuel with
  | zero => intro i _; rfl
  | succ n ih =>
    intro i h
    have h0 : act i = false := by simpa using h 0 n.succ_pos
    have hrest : ∀ j, j < n → act (i + 1 + j) = false := by
      intro j hj
      have := h (j + 1) (by omega)
      rwa [show i + (j + 1) = i + 1 + j by omega] at this
    rw [retryLoopAux, h0]
    simp [ih (i + 1) hrest]

theorem retryLoopAux_first_success (act : Nat → Bool) (k : Nat) :
    ∀ i fuel : Nat, k < fuel →
    (∀ j, j < k → act (i + j) = false) → act (i + k) = true →
    retryLoopAux act i fuel = ⟨k + 1, k, true⟩ := by
  induction k with
  | zero =>
    intro i fuel hk _ hsucc
    match fuel, hk with
    | n + 1, _ =>
      rw [retryLoopAux, show act i = true by simpa using hsucc]
      rfl
  | succ k ih =>
    intro i fuel hk hfail hsucc
    match fuel, hk with
    | n + 1, hk =>
      have h0 : act i = false := by simpa using hfail 0 k.succ_pos
      have hfail' : ∀ j, j < k → act (i + 1 + j) = false := by
        intro j hj
        have := hfail (j + 1) (by omega)
        rwa [show i + (j + 1) = i + 1 + j by omega] at this
      have hsucc' : act (i + 1 + k) = true := by
        rwa [show i + (k + 1) = i + 1 + k by omega] at hsucc
      rw [retryLoopAux, h0]
      simp [ih (i + 1) n (by omega) hfail' hsucc']

theorem handshakeAux_snd_le (ok : Nat → Bool) (fuel : Nat) : ∀ i : Nat,
    (handshakeAux ok i fuel).2 ≤ i + fuel := by
  induction fuel with
  | zero => intro i; simp [handshakeAux]
  | succ n ih =>
    intro i
    rw [handshakeAux]
    by_cases h : ok i = true
    · simp [h]
    · rw [if_neg (by simp [h])]
      calc (handshakeAux ok (i + 1) n).2 ≤ i + 1 + n := ih (i + 1)
        _ = i + (n + 1) := by omega

theorem handshakeAux_all_fail (ok : Nat → Bool) (fuel : Nat) : ∀ i : Nat,
    (∀ j, j < fuel → ok (i + j) = false) →
    handshakeAux ok i fuel = (false, i + fuel) := by
  induction fuel with
  | zero => intro i _; rfl
  | succ n ih =>
    intro i h
    have h0 : ok i = false := by simpa using h 0 n.succ_pos
    have hrest : ∀ j, j < n → ok (i + 1 + j) = false := by
      intro j hj
      have := h (j + 1) (by omega)
      rwa [show i + (j + 1) = i + 1 + j by omega] at this
    rw [handshakeAux, if_neg (by simp [h0]), ih (i + 1) hrest]
    congr 1
    omega

theorem handshakeAux_success (ok : Nat → Bool) (fuel : Nat) : ∀ i : Nat,
    (∃ j, j < fuel ∧ ok (i + j) = true) →
    (handshakeAux ok i fuel).1 = true := by
  induction fuel with
  | zero => rintro i ⟨j, hj, -⟩; omega
  | succ n ih =>
    rintro i ⟨j, hj, hok⟩
    rw [handshakeAux]
    by_cases h0 : ok i = true
    · simp [h0]
    · rw [if_neg (by simp [h0])]
      apply ih (i + 1)
      match j, hok with
      | 0, hok => exact absurd (by simpa using hok) h0
      | j + 1, hok =>
        exact ⟨j, by omega, by rwa [show i + (j + 1) = i + 1 + j by omega] at hok⟩

theorem runTicksAux_length (ok : Nat → Bool) (ts : Nat → Nat)
    (dss : Nat → DataSet) (fuel : Nat) : ∀ (i n : Nat) (data : Option Payload),
    (runTicksAux ok ts dss i n data fuel).length = fuel := by
  induction fuel with
  | zero => intro i n data; rfl
  | succ f ih =>
    intro i n data
    rw [runTicksAux]
    simp [ih]

/-- C1: the change filter, applied independently to each of temp1,
humidity, temp2, pressure: an unset memo always reports the sample and
sets the memo; a set memo reports and updates exactly when the absolute
difference strictly exceeds 1; otherwise — including the boundary
`|v - prev| = 1` — the field gets the no-change marker and the memo stays
unchanged. The last two conjuncts show `getSensorData` routes every metric
of a successful read through this filter against its own memo. -/
theorem C1_change_filter (prev : Option ℚ) (v : ℚ) (inp : SensorInput)
    (ds : DataSet) (m : Memos) :
    (prev = none → applyFilter prev v = (some v, some v)) ∧
    (∀ p, prev = some p → 1 < |v - p| → applyFilter prev v = (some v, some v)) ∧
    (∀ p, prev = some p → |v - p| ≤ 1 → applyFilter prev v = (none, some p)) ∧
    (∀ t1 h, inp.shtc3 = some (t1, h) →
      ((getSensorData inp ds m).1.temp1, (getSensorData inp ds m).2.prev_temp1)
          = applyFilter m.prev_temp1 t1 ∧
      ((getSensorData inp ds m).1.humi, (getSensorData inp ds m).2.prev_humi)
          = applyFilter m.prev_humi h) ∧
    (∀ pr t2, inp.lps22hb = some (pr, t2) →
      ((getSensorData inp ds m).1.temp2, (getSensorData inp ds m).2.prev_temp2)
          = applyFilter m.prev_temp2 t2 ∧
      ((getSensorData inp ds m).1.press, (getSensorData inp ds m).2.prev_press)
          = applyFilter m.prev_press pr) := by
  refine ⟨?_, ?_, ?_, ?_, ?_⟩
  · rintro rfl; rfl
  · rintro p rfl hgt
    simp [applyFilter, hgt]
  · rintro p rfl hle
    simp [applyFilter, not_lt.2 hle]
  · rintro t1 h hs
    rw [getSensorData_eq]
    simp [hs]
  · rintro pr t2 hl
    rw [getSensorData_eq]
    simp [hl]

/-- C1 witness: an unset memo reports 5; `|5 - 3| = 2 > 1` reports;
`|5 - 4| = 1` is the boundary and is suppressed with the memo kept. -/
theorem C1_change_filter_witness :
    applyFilter none (5 : ℚ) = (some 5, some 5) ∧
    applyFilter (some 3) (5 : ℚ) = (some 5, some 5) ∧
    applyFilter (some 4) (5 : ℚ) = (none, some 4) :=
  ⟨(C1_change_filter none 5 ⟨none, none, none⟩ initDataSet initMemos).1 rfl,
   (C1_change_filter (some 3) 5 ⟨none, none, none⟩ initDataSet initMemos).2.1
     3 rfl (by norm_num),
   (C1_change_filter (some 4) 5 ⟨none, none, none⟩ initDataSet initMemos).2.2.1
     4 rfl (by norm_num)⟩

/-- C2 counterexample: the claim promises `maxAttempts - 1 = 9` sleeps for
an action that fails on every attempt, but the loop sleeps after every
failed attempt, the tenth included: 10 sleeps. -/
theorem C2_retry_counterexample :
    sendLbs (fun _ => false) = ⟨10, 10, false⟩ ∧
    (sendLbs (fun _ => false)).sleeps ≠ 9 := by
  constructor <;> decide

/-- C2 amended: `sendLbs` and `sendGnss` run the same loop; an action
failing on every attempt is called exactly 10 times with a sleep after
every failed attempt (10 sleeps, not 9) and the failure branch is taken;
an action first succeeding on attempt `k + 1 ≤ 10` is called exactly
`k + 1` times with `k` sleeps and the success branch is taken. The loop
returns nothing (`None` in the source); success is only logged. -/
theorem C2_retry_helper (act : Nat → Bool) (k : Nat) :
    sendGnss act = sendLbs act ∧
    ((∀ i, i < 10 → act i = false) → sendLbs act = ⟨10, 10, false⟩) ∧
    (k < 10 → (∀ i, i < k → act i = false) → act k = true →
      sendLbs act = ⟨k + 1, k, true⟩) := by
  refine ⟨rfl, ?_, ?_⟩
  · intro h
    exact retryLoopAux_all_fail act 10 0 (fun j hj => by simpa using h j hj)
  · intro hk hfail hsucc
    exact retryLoopAux_first_success act k 0 10 hk
      (fun j hj => by simpa using hfail j hj) (by simpa using hsucc)

/-- C2 witness: an action succeeding first on its 4th call gives 4 calls,
3 sleeps, success; the all-failing action gives the 10-call outcome. -/
theorem C2_retry_helper_witness :
    sendLbs (fun i => i == 3) = ⟨4, 3, true⟩ ∧
    sendLbs (fun _ => false) = ⟨10, 10, false⟩ :=
  ⟨(C2_retry_helper (fun i => i == 3) 3).2.2 (by norm_num)
      (fun i hi => by interval_cases i <;> rfl) rfl,
   (C2_retry_helper (fun _ => false) 0).2.1 (fun i _ => rfl)⟩

/-- C3: the handshake polls `isStatusOk` at most 30 times; if any of the
first 30 polls succeeds the task advances to the steady reporting loop
(entered with `data` unbound and the status-call counter continuing from
the handshake); if all 30 fail, `__call__` returns after the fatal log and
no `sendTsl` call ever happens. -/
theorem C3_handshake (ok : Nat → Bool) (ts : Nat → Nat) (dss : Nat → DataSet)
    (fuel : Nat) :
    (handshake ok).2 ≤ 30 ∧
    ((∃ k, k < 30 ∧ ok k = true) →
      (handshake ok).1 = true ∧
      uploaderCall ok ts dss fuel
        = .active [Event.lbs, Event.gnss]
            (runTicksAux ok ts dss (handshake ok).2 0 none fuel)) ∧
    ((∀ k, k < 30 → ok k = false) →
      uploaderCall ok ts dss fuel = .aborted ∧
      tslPayloads (uploaderCall ok ts dss fuel) = []) := by
  refine ⟨handshakeAux_snd_le ok 30 0, ?_, ?_⟩
  · rintro ⟨k, hk, hok⟩
    have hadv : (handshake ok).1 = true :=
      handshakeAux_success ok 30 0 ⟨k, hk, by simpa using hok⟩
    exact ⟨hadv, by rw [uploaderCall, if_pos hadv]⟩
  · intro hfail
    have habort : handshake ok = (false, 30) :=
      handshakeAux_all_fail ok 30 0 (fun j hj => by simpa using hfail j hj)
    have : uploaderCall ok ts dss fuel = .aborted := by
      rw [uploaderCall, habort, if_neg (by simp)]
    exact ⟨this, by rw [this]; rfl⟩

/-- C3 witness: `isStatusOk` false 29 times then true on the 30th poll
advances; always-false aborts with no telemetry dispatched. -/
theorem C3_handshake_witness :
    (handshake (fun k => k == 29)).1 = true ∧
    uploaderCall (fun _ => false) (fun _ => 0) (fun _ => initDataSet) 100
      = .aborted :=
  ⟨((C3_handshake (fun k => k == 29) (fun _ => 0) (fun _ => initDataSet)
      0).2.1 ⟨29, by norm_num, rfl⟩).1,
   ((C3_handshake (fun _ => false) (fun _ => 0) (fun _ => initDataSet)
      100).2.2 (fun k _ => rfl)).1⟩

/-- C4: on a steady-state tick with the status check passing, the LBS
report fires exactly on timestamps that are multiples of 1800 and the GNSS
report exactly on multiples of 60; a multiple of 1800 is also a multiple
of 60, so both fire there; on a multiple of neither, no location report is
triggered at all (whether the tick dispatched telemetry or was caught by
the exception handler). -/
theorem C4_location_cadence (t : Nat) (ds : DataSet) (data : Option Payload) :
    (t % 1800 = 0 → Event.lbs ∈ (uploadTick true t ds data).2 ∧
      Event.gnss ∈ (uploadTick true t ds data).2) ∧
    (t % 60 = 0 → Event.gnss ∈ (uploadTick true t ds data).2) ∧
    (t % 1800 ≠ 0 → Event.lbs ∉ (uploadTick true t ds data).2) ∧
    (t % 60 ≠ 0 → Event.gnss ∉ (uploadTick true t ds data).2) := by
  refine ⟨?_, ?_, ?_, ?_⟩
  · intro h1800
    have h5 : t % 5 = 0 := by omega
    have h60 : t % 60 = 0 := by omega
    simp [uploadTick, assembleData, h5, h1800, h60]
  · intro h60
    have h5 : t % 5 = 0 := by omega
    by_cases h1800 : t % 1800 = 0 <;>
      simp [uploadTick, assembleData, h5, h60, h1800]
  · intro h1800
    rcases hA : assembleData t ds data with u | p
    · simp [uploadTick, hA]
    · by_cases h60 : t % 60 = 0 <;> simp [uploadTick, hA, h1800, h60]
  · intro h60
    rcases hA : assembleData t ds data with u | p
    · simp [uploadTick, hA]
    · by_cases h1800 : t % 1800 = 0 <;> simp [uploadTick, hA, h60, h1800]

/-- C4 witness: at t = 1800 both location reports fire, at t = 60 GNSS
fires, and at t = 7 LBS does not. -/
theorem C4_location_cadence_witness :
    Event.lbs ∈ (uploadTick true 1800 initDataSet none).2 ∧
    Event.gnss ∈ (uploadTick true 60 initDataSet none).2 ∧
    Event.lbs ∉ (uploadTick true 7 initDataSet none).2 :=
  ⟨((C4_location_cadence 1800 initDataSet none).1 rfl).1,
   (C4_location_cadence 60 initDataSet none).2.1 rfl,
   (C4_location_cadence 7 initDataSet none).2.2.1 (by norm_num)⟩

/-- C5 counterexample: the `data` dict is a `__call__`-local that persists
across loop iterations. After a multiple-of-5 tick binds it (t = 5, rgb
255, temp1 = 20), the next tick (t = 6, not a multiple of 5, temp1 now the
no-change marker) dispatches a payload that still contains the color
channels and the stale temp1 entry — contradicting both "color included
exactly when t % 5 = 0" and "a null field is omitted". -/
theorem C5_payload_selection_counterexample :
    (uploadTick true 6 ⟨none, none, none, none, 7⟩
        (uploadTick true 5 ⟨some 20, none, none, none, 255⟩ none).1).2
      = [Event.tsl ⟨some (0, 0, 255), some 20, none, none, none⟩] ∧
    6 % 5 ≠ 0 ∧ (⟨none, none, none, none, 7⟩ : DataSet).temp1 = none := by
  refine ⟨by decide, by norm_num, rfl⟩

/-- C5 amended: on a multiple-of-5 tick the payload is rebuilt from
scratch with exactly the three current color channels, then each non-null
metric is added; on any other tick the previously bound dict is reused, so
its old entries — color channels and metric values from earlier ticks —
persist: a non-null metric overwrites its key, a null metric leaves the
carried-over entry in place rather than omitting the key; if no dict was
ever bound, assembly faults instead of producing a payload. -/
theorem C5_payload_selection (t : Nat) (ds : DataSet) (d : Payload) :
    (t % 5 = 0 →
      assembleData t ds (some d)
          = .ok (updateMetrics (freshPayload ds.rgb888) ds) ∧
      assembleData t ds none
          = .ok (updateMetrics (freshPayload ds.rgb888) ds)) ∧
    (t % 5 ≠ 0 → assembleData t ds (some d) = .ok (updateMetrics d ds) ∧
      assembleData t ds none = .error ()) ∧
    (freshPayload ds.rgb888).rgb
      = some ((ds.rgb888 >>> 16) &&& 255, (ds.rgb888 >>> 8) &&& 255,
              ds.rgb888 &&& 255) ∧
    (updateMetrics d ds).rgb = d.rgb ∧
    (∀ v, ds.temp1 = some v → (updateMetrics d ds).temp1 = some v) ∧
    (ds.temp1 = none → (updateMetrics d ds).temp1 = d.temp1) ∧
    (∀ v, ds.humi = some v → (updateMetrics d ds).humi = some v) ∧
    (ds.humi = none → (updateMetrics d ds).humi = d.humi) ∧
    (∀ v, ds.temp2 = some v → (updateMetrics d ds).temp2 = some v) ∧
    (ds.temp2 = none → (updateMetrics d ds).temp2 = d.temp2) ∧
    (∀ v, ds.press = some v → (updateMetrics d ds).press = some v) ∧
    (ds.press = none → (updateMetrics d ds).press = d.press) := by
  have hup : ∀ dd : Payload,
      (updateMetrics dd ds).rgb = dd.rgb ∧
      (updateMetrics dd ds).temp1
          = (match ds.temp1 with | some v => some v | none => dd.temp1) ∧
      (updateMetrics dd ds).humi
          = (match ds.humi with | some v => some v | none => dd.humi) ∧
      (updateMetrics dd ds).temp2
          = (match ds.temp2 with | some v => some v | none => dd.temp2) ∧
      (updateMetrics dd ds).press
          = (match ds.press with | some v => some v | none => dd.press) := by
    intro dd
    rcases h1 : ds.temp1 with _ | v1 <;> rcases h2 : ds.humi with _ | v2 <;>
      rcases h3 : ds.temp2 with _ | v3 <;> rcases h4 : ds.press with _ | v4 <;>
        simp [updateMetrics, h1, h2, h3, h4]
  refine ⟨?_, ?_, rfl, (hup d).1, ?_, ?_, ?_, ?_, ?_, ?_, ?_, ?_⟩
  · intro h5
    constructor <;> simp [assembleData, h5, Nat.mod_one]
  · intro h5
    constructor <;> simp [assembleData, h5, Nat.mod_one]
  · intro v hv; rw [(hup d).2.1, hv]
  · intro hv; rw [(hup d).2.1, hv]
  · intro v hv; rw [(hup d).2.2.1, hv]
  · intro hv; rw [(hup d).2.2.1, hv]
  · intro v hv; rw [(hup d).2.2.2.1, hv]
  · intro hv; rw [(hup d).2.2.2.1, hv]
  · intro v hv; rw [(hup d).2.2.2.2, hv]
  · intro hv; rw [(hup d).2.2.2.2, hv]

/-- C5 witness: at t = 5 the fresh dict is built whether or not one was
bound; at t = 6 the stale dict is updated; a null temp1 leaves the stale
entry, a non-null temp2 overwrites. -/
theorem C5_payload_selection_witness :
    assembleData 5 initDataSet (some (freshPayload 3))
        = .ok (updateMetrics (freshPayload initDataSet.rgb888) initDataSet) ∧
    assembleData 6 initDataSet (some (freshPayload 3))
        = .ok (updateMetrics (freshPayload 3) initDataSet) ∧
    (updateMetrics ⟨none, some 20, none, none, none⟩
        ⟨none, none, none, some 21, 0⟩).temp1 = some 20 ∧
    (updateMetrics ⟨none, some 20, none, none, none⟩
        ⟨none, none, none, some 21, 0⟩).temp2 = some 21 :=
  ⟨((C5_payload_selection 5 initDataSet (freshPayload 3)).1 rfl).1,
   ((C5_payload_selection 6 initDataSet (freshPayload 3)).2.1
      (by norm_num)).1,
   (C5_payload_selection 6 ⟨none, none, none, some 21, 0⟩
      ⟨none, some 20, none, none, none⟩).2.2.2.2.2.1 rfl,
   (C5_payload_selection 6 ⟨none, none, none, some 21, 0⟩
      ⟨none, some 20, none, none, none⟩).2.2.2.2.2.2.2.2.1 21 rfl⟩

/-- C6: the three sensor reads are independently fault-isolated. A failed
read leaves that sensor's fields and memos untouched for the tick; each
sensor's fields depend only on its own read outcome, so any other sensor
still updates normally in the same tick; and every tick of the sampling
loop unconditionally runs `getSensorData` on the previous state — a read
fault is absorbed inside the tick and never ends the loop. -/
theorem C6_sampling_fault_isolation (inp inp' : SensorInput) (ds : DataSet)
    (m : Memos) (inps : Nat → SensorInput) (ds0 : DataSet) (m0 : Memos)
    (n : Nat) :
    (inp.shtc3 = none →
      (getSensorData inp ds m).1.temp1 = ds.temp1 ∧
      (getSensorData inp ds m).1.humi = ds.humi ∧
      (getSensorData inp ds m).2.prev_temp1 = m.prev_temp1 ∧
      (getSensorData inp ds m).2.prev_humi = m.prev_humi) ∧
    (inp.lps22hb = none →
      (getSensorData inp ds m).1.press = ds.press ∧
      (getSensorData inp ds m).1.temp2 = ds.temp2 ∧
      (getSensorData inp ds m).2.prev_press = m.prev_press ∧
      (getSensorData inp ds m).2.prev_temp2 = m.prev_temp2) ∧
    (inp.tcs34725 = none → (getSensorData inp ds m).1.rgb888 = ds.rgb888) ∧
    (inp.shtc3 = inp'.shtc3 →
      (getSensorData inp ds m).1.temp1 = (getSensorData inp' ds m).1.temp1 ∧
      (getSensorData inp ds m).1.humi = (getSensorData inp' ds m).1.humi ∧
      (getSensorData inp ds m).2.prev_temp1
          = (getSensorData inp' ds m).2.prev_temp1 ∧
      (getSensorData inp ds m).2.prev_humi
          = (getSensorData inp' ds m).2.prev_humi) ∧
    (inp.lps22hb = inp'.lps22hb →
      (getSensorData inp ds m).1.press = (getSensorData inp' ds m).1.press ∧
      (getSensorData inp ds m).1.temp2 = (getSensorData inp' ds m).1.temp2 ∧
      (getSensorData inp ds m).2.prev_press
          = (getSensorData inp' ds m).2.prev_press ∧
      (getSensorData inp ds m).2.prev_temp2
          = (getSensorData inp' ds m).2.prev_temp2) ∧
    (inp.tcs34725 = inp'.tcs34725 →
      (getSensorData inp ds m).1.rgb888 = (getSensorData inp' ds m).1.rgb888) ∧
    samplingLoop inps ds0 m0 (n + 1)
      = getSensorData (inps n) (samplingLoop inps ds0 m0 n).1
          (samplingLoop inps ds0 m0 n).2 := by
  rw [getSensorData_eq inp ds m, getSensorData_eq inp' ds m]
  refine ⟨?_, ?_, ?_, ?_, ?_, ?_, rfl⟩
  · intro h; simp [h]
  · intro h; simp [h]
  · intro h; simp [h]
  · intro h; simp [h]
  · intro h; simp [h]
  · intro h; simp [h]

/-- C6 witness: with the shtc3 read failing and the other two succeeding,
temp1 and its memo are untouched while the rgb result matches the run in
which shtc3 succeeded too. -/
theorem C6_sampling_fault_isolation_witness :
    (getSensorData ⟨none, some (1000, 21), some 255⟩ initDataSet
        initMemos).1.temp1 = initDataSet.temp1 ∧
    (getSensorData ⟨none, some (1000, 21), some 255⟩ initDataSet
        initMemos).1.rgb888
      = (getSensorData ⟨some (20, 50), some (1000, 21), some 255⟩ initDataSet
          initMemos).1.rgb888 :=
  ⟨((C6_sampling_fault_isolation ⟨none, some (1000, 21), some 255⟩
      ⟨none, some (1000, 21), some 255⟩ initDataSet initMemos
      (fun _ => ⟨none, none, none⟩) initDataSet initMemos 0).1 rfl).1,
   (C6_sampling_fault_isolation ⟨none, some (1000, 21), some 255⟩
      ⟨some (20, 50), some (1000, 21), some 255⟩ initDataSet initMemos
      (fun _ => ⟨none, none, none⟩) initDataSet initMemos 0).2.2.2.2.2.1 rfl⟩

/-- C7 counterexample: with steady-state timestamps 5 then 6, the first
iteration whose timestamp is not a multiple of 5 is the second one; `data`
still holds the dict bound at t = 5, so that tick dispatches a payload
instead of hitting an unbound-variable fault. -/
theorem C7_unbound_data_counterexample :
    runTicksAux (fun _ => true) (fun n => 5 + n) (fun _ => initDataSet)
        0 0 none 2
      = [[Event.tsl ⟨some (0, 0, 0), some 0, some 0, some 0, some 0⟩],
         [Event.tsl ⟨some (0, 0, 0), some 0, some 0, some 0, some 0⟩]] ∧
    (5 + 1) % 5 ≠ 0 := by
  refine ⟨by decide, by norm_num⟩

/-- C7 amended: `data` is bound only in the multiple-of-5 branch, so on
the very first steady-state iteration a non-multiple-of-5 timestamp reads
it unbound and the tick faults (caught, nothing dispatched, `data` still
unbound); but on any later iteration `data` keeps the binding from the
most recent multiple-of-5 tick, and a non-multiple-of-5 timestamp then
assembles a (stale-seeded) payload without faulting. -/
theorem C7_unbound_data (t : Nat) (ds : DataSet) (d : Payload)
    (ok : Nat → Bool) (ts : Nat → Nat) (dss : Nat → DataSet)
    (i fuel : Nat) :
    (t % 5 ≠ 0 →
      assembleData t ds none = .error () ∧
      uploadTick true t ds none = (none, [Event.caught]) ∧
      assembleData t ds (some d) = .ok (updateMetrics d ds)) ∧
    (ok i = true → ts 0 % 5 ≠ 0 →
      runTicksAux ok ts dss i 0 none (fuel + 1)
        = [Event.caught] :: runTicksAux ok ts dss (i + 1) 1 none fuel) := by
  constructor
  · intro h5
    refine ⟨by simp [assembleData, h5], ?_, by simp [assembleData, h5, Nat.mod_one]⟩
    simp [uploadTick, assembleData, h5]
  · intro hok h5
    rw [runTicksAux]
    simp [hok, uploadTick, assembleData, h5]

/-- C7 witness: a first tick at t = 4 faults and leaves `data` unbound;
once bound, a tick at t = 4 with a stale dict produces a payload. -/
theorem C7_unbound_data_witness :
    uploadTick true 4 initDataSet none = (none, [Event.caught]) ∧
    assembleData 4 initDataSet (some (freshPayload 9))
      = .ok (updateMetrics (freshPayload 9) initDataSet) ∧
    runTicksAux (fun _ => true) (fun n => 4 + n) (fun _ => initDataSet)
        0 0 none 1
      = [Event.caught] :: runTicksAux (fun _ => true) (fun n => 4 + n)
          (fun _ => initDataSet) 1 1 none 0 :=
  ⟨((C7_unbound_data 4 initDataSet (freshPayload 9) (fun _ => true)
      (fun n => 4 + n) (fun _ => initDataSet) 0 0).1 (by norm_num)).2.1,
   ((C7_unbound_data 4 initDataSet (freshPayload 9) (fun _ => true)
      (fun n => 4 + n) (fun _ => initDataSet) 0 0).1 (by norm_num)).2.2,
   (C7_unbound_data 4 initDataSet (freshPayload 9) (fun _ => true)
      (fun n => 4 + n) (fun _ => initDataSet) 0 0).2 rfl (by norm_num)⟩

/-- C8: when the status check fails on a steady-state tick, the tick only
logs the connect error: `data` is unchanged, the tick's behaviour does not
depend on the data-set snapshot at all (no field of the shared set is
read), and no telemetry or location dispatch happens before the next
tick. -/
theorem C8_not_ready_skips_tick (t : Nat) (ds ds' : DataSet)
    (d : Option Payload) :
    uploadTick false t ds d = (d, [Event.statusErr]) ∧
    uploadTick false t ds d = uploadTick false t ds' d := by
  constructor <;> simp [uploadTick]

/-- C9: once in active reporting, each tick's body runs under the
tick-level exception handler: a payload-assembly fault is caught inside
the tick, logged, and leaves `data` as it was; and the steady-state loop
always runs exactly as many ticks as it is given — no tick outcome
shortens it. -/
theorem C9_tick_exception_contained (ok : Nat → Bool) (ts : Nat → Nat)
    (dss : Nat → DataSet) (i n fuel : Nat) (data : Option Payload)
    (t : Nat) (ds : DataSet) (d : Option Payload) :
    (runTicksAux ok ts dss i n data fuel).length = fuel ∧
    (assembleData t ds d = .error () →
      uploadTick true t ds d = (d, [Event.caught])) := by
  refine ⟨runTicksAux_length ok ts dss fuel i n data, ?_⟩
  intro hA
  simp [uploadTick, hA]

/-- C9 witness: a three-tick run whose first tick faults still executes
all three ticks, and the faulting tick is exactly the caught event. -/
theorem C9_tick_exception_contained_witness :
    (runTicksAux (fun _ => true) (fun n => 4 + n) (fun _ => initDataSet)
        0 0 none 3).length = 3 ∧
    uploadTick true 4 initDataSet none = (none, [Event.caught]) :=
  ⟨(C9_tick_exception_contained (fun _ => true) (fun n => 4 + n)
      (fun _ => initDataSet) 0 0 3 none 4 initDataSet none).1,
   (C9_tick_exception_contained (fun _ => true) (fun n => 4 + n)
      (fun _ => initDataSet) 0 0 3 none 4 initDataSet none).2 rfl⟩

/-- C10 counterexample: the invariant as claimed fails when a read fails
before the metric was ever reported: from the initial state (field `0`,
memo unset), a tick whose shtc3 read raises leaves `temp1 = some 0` with
`prev_temp1 = none` — the field is neither the no-change marker nor equal
to a memo value. -/
theorem C10_field_memo_counterexample :
    ¬ fieldMatchesMemo
        (getSensorData ⟨none, none, none⟩ initDataSet initMemos).1.temp1
        (getSensorData ⟨none, none, none⟩ initDataSet initMemos).2.prev_temp1
      := by
  decide

/-- C10 amended: the invariant holds for every metric whose memo is set:
after any sampling step, such a field is the no-change marker or exactly
the memo's value (the code assigns both from the same sample), the
property is preserved from any state satisfying it and holds after every
tick of the loop from the initial state; and a memo, once set, is never
reset to unset. -/
theorem C10_memo_field_invariant (inp : SensorInput) (ds : DataSet)
    (m : Memos) (inps : Nat → SensorInput) (n : Nat)
    (h : memoFieldInv ds m) :
    memoFieldInv (getSensorData inp ds m).1 (getSensorData inp ds m).2 ∧
    (m.prev_temp1 ≠ none → (getSensorData inp ds m).2.prev_temp1 ≠ none) ∧
    (m.prev_humi ≠ none → (getSensorData inp ds m).2.prev_humi ≠ none) ∧
    (m.prev_temp2 ≠ none → (getSensorData inp ds m).2.prev_temp2 ≠ none) ∧
    (m.prev_press ≠ none → (getSensorData inp ds m).2.prev_press ≠ none) ∧
    memoFieldInv (samplingLoop inps initDataSet initMemos n).1
      (samplingLoop inps initDataSet initMemos n).2 := by
  refine ⟨getSensorData_preserves_inv inp ds m h, ?_, ?_, ?_, ?_,
    samplingLoop_inv inps n⟩ <;>
  · rw [getSensorData_eq]
    rcases hs : inp.shtc3 with _ | ⟨t1, hu⟩ <;>
      rcases hl : inp.lps22hb with _ | ⟨pr, t2⟩ <;>
        simp [applyFilter_snd_ne_none]

/-- C10 witness: one successful tick from the initial state establishes
the invariant, and the set temp1 memo stays set after a second, failing
tick. -/
theorem C10_memo_field_invariant_witness :
    memoFieldInv
      (getSensorData ⟨some (20, 50), some (1000, 21), some 255⟩ initDataSet
        initMemos).1
      (getSensorData ⟨some (20, 50), some (1000, 21), some 255⟩ initDataSet
        initMemos).2 ∧
    (getSensorData ⟨none, none, none⟩
      (getSensorData ⟨some (20, 50), some (1000, 21), some 255⟩ initDataSet
        initMemos).1
      (getSensorData ⟨some (20, 50), some (1000, 21), some 255⟩ initDataSet
        initMemos).2).2.prev_temp1 ≠ none :=
  ⟨(C10_memo_field_invariant ⟨some (20, 50), some (1000, 21), some 255⟩
      initDataSet initMemos (fun _ => ⟨none, none, none⟩) 0
      memoFieldInv_init).1,
   (C10_memo_field_invariant ⟨none, none, none⟩
      (getSensorData ⟨some (20, 50), some (1000, 21), some 255⟩ initDataSet
        initMemos).1
      (getSensorData ⟨some (20, 50), some (1000, 21), some 255⟩ initDataSet
        initMemos).2 (fun _ => ⟨none, none, none⟩) 0
      ((C10_memo_field_invariant ⟨some (20, 50), some (1000, 21), some 255⟩
        initDataSet initMemos (fun _ => ⟨none, none, none⟩) 0
        memoFieldInv_init).1)).2.1 (by decide)⟩

end SensorHub
